import Mathlib

/-!
Verification of the per-user task-tracking HTTP service.

The definitions below are a shallow embedding of the request-handling layer:

  * src/models/Task.ts  (TaskStatus enum, TaskSchema with trim / maxlength /
    required / enum validators)
  * src/models/User.ts  (UserSchema with a unique userId)
  * src/middleware/auth.ts  (authMiddleware)
  * src/routes/tasks.ts  (taskRoutes: list, get-one, create, update, delete)
  * index.ts  (global error handler: CastError and ValidationError map to 400,
    otherwise the error's own statusCode, else 500)

The document store (MongoDB via mongoose) is embedded as a list of task
records; one store query is one pure function on that list.  A mongoose
ObjectId in string form is a 24-character hexadecimal string: a filter on
_id first casts the string and raises CastError when it is malformed.
-/

/-- The four TaskStatus enum values of src/models/Task.ts, as the exact wire
strings. -/
def taskStatusValues : List String := ["To do", "In Progress", "Done", "Archived"]

/-- A persisted task document: _id, title, description, status, userId and the
two timestamps added by the schema option timestamps: true. -/
structure StoredTask where
  id : String
  title : String
  description : String
  status : String
  userId : String
  createdAt : Nat
  updatedAt : Nat
deriving Repr, DecidableEq

/-- The task collection. -/
abbrev TaskStore := List StoredTask

/-- A persisted identity record of src/models/User.ts. -/
structure UserRec where
  userId : String
  createdAt : Nat
deriving Repr, DecidableEq

/-- Whether a string casts to a mongoose ObjectId: 24 hexadecimal characters.
A filter on _id with any other string raises CastError. -/
def isValidObjectId (s : String) : Bool :=
  s.length == 24 &&
    s.toList.all (fun c =>
      c.isDigit || (('a' ≤ c) && (c ≤ 'f')) || (('A' ≤ c) && (c ≤ 'F')))

/-- The failure outcomes a handler can produce. NotFoundError and
ValidationError are thrown by the handlers in src/routes/tasks.ts; CastError
is raised by the store on a malformed _id; unauthorized and internalError are
sent directly by authMiddleware. -/
inductive ApiFailure
  | notFound (msg : String)
  | validation (msg : String)
  | castError
  | unauthorized
  | internalError (msg : String)
deriving Repr, DecidableEq

/-- Modelled from the spec: the error classes of src/utils/errors.ts are not
in the sources, only their throw sites are.  The spec's status-code mapping
(section 4.3 and 7) is Unauthorized to 401, ValidationError to 400, NotFound
to 404, malformed identifier (CastError) to 400, anything unclassified to
500; index.ts's global handler confirms CastError and ValidationError map to
400 and that other errors supply their own statusCode. -/
def ApiFailure.statusCode : ApiFailure → Nat
  | notFound _ => 404
  | validation _ => 400
  | castError => 400
  | unauthorized => 401
  | internalError _ => 500

/-- Outcome of one task operation: either the success payload or a failure. -/
inductive OpResult (α : Type)
  | ok (val : α)
  | err (e : ApiFailure)
deriving Repr, DecidableEq

/-- A store write can fail; the uniqueness constraint on User.userId makes a
duplicate-key failure possible when two first requests race. -/
inductive DbWriteError
  | duplicateKey
  | connectionFailure
deriving Repr, DecidableEq

/-- Outcome of authMiddleware: reply 401, reply 500, or bind the resolved
identity token into the request context. -/
inductive AuthOutcome
  | unauthorized
  | authFailed
  | resolved (userId : String)
deriving Repr, DecidableEq

/-- The HTTP status authMiddleware itself sends, when it sends one: 401 for a
missing or empty x-user-id header, 500 when the lookup or create throws. -/
def AuthOutcome.httpStatus : AuthOutcome → Option Nat
  | unauthorized => some 401
  | authFailed => some 500
  | resolved _ => none

/-- src/middleware/auth.ts, authMiddleware.  header is the x-user-id request
header; existing is the result of the User.findOne lookup for that token;
createResult is what User.create would return when the lookup missed.  The
try/catch around the lookup and the create turns any store error — a
duplicate-key violation from the unique index included — into a 500 reply. -/
def authMiddleware (header : Option String) (existing : Option UserRec)
    (createResult : Except DbWriteError UserRec) : AuthOutcome :=
  match header with
  | none => AuthOutcome.unauthorized
  | some uid =>
    if uid == "" then AuthOutcome.unauthorized
    else
      match existing with
      | some _ => AuthOutcome.resolved uid
      | none =>
        match createResult with
        | Except.ok _ => AuthOutcome.resolved uid
        | Except.error _ => AuthOutcome.authFailed

/-- Task.findOne with filter on _id and userId (first matching document). -/
def findOneTask (store : TaskStore) (id uid : String) : Option StoredTask :=
  store.find? (fun t => t.id == id && t.userId == uid)

/-- GET /tasks/:id.  The handler catches CastError locally and replies 400;
a miss of the id-and-owner filter throws NotFoundError. -/
def getTask (store : TaskStore) (uid id : String) : OpResult StoredTask :=
  if !isValidObjectId id then OpResult.err ApiFailure.castError
  else
    match findOneTask store id uid with
    | none => OpResult.err (ApiFailure.notFound ("Task not found"))
    | some t => OpResult.ok t

/-- The JSON body of POST /tasks; a missing key is none. -/
structure CreateBody where
  title : Option String
  description : Option String
  status : Option String
deriving Repr, DecidableEq

/-- The trim setter of the schema (JavaScript String.prototype.trim):
leading and trailing whitespace removed. -/
def trimmed (s : String) : String :=
  String.mk
    (((s.toList.dropWhile Char.isWhitespace).reverse.dropWhile
      Char.isWhitespace).reverse)

/-- JavaScript falsiness of an optional string: undefined or the empty
string. -/
def falsy : Option String → Bool
  | none => true
  | some s => s == ""

/-- The TaskSchema document validators of src/models/Task.ts, after the trim
setters have run: title required and at most 200 characters, description
required and at most 2000 characters, status restricted to the enum. -/
def validTaskDoc (t : StoredTask) : Bool :=
  t.title != "" && t.title.length ≤ 200 &&
    t.description != "" && t.description.length ≤ 2000 &&
    taskStatusValues.contains t.status

/-- The document Task.create builds from the POST handler's object literal:
title and description through the trim setters, status as destructured (with
the To do default for an absent key), userId the resolved identity, both
timestamps set to creation time. -/
def newTaskDoc (uid : String) (b : CreateBody) (newId : String)
    (now : Nat) : StoredTask :=
  { id := newId
    title := trimmed (b.title.getD (""))
    description := trimmed (b.description.getD (""))
    status := b.status.getD ("To do")
    userId := uid
    createdAt := now
    updatedAt := now }

/-- POST /tasks.  Destructuring gives status the default To do only when the
key is absent; the handler checks title and description for falsiness, then
the JavaScript-truthy status against the enum, then Task.create runs the
schema validators (trim setters applied first) and either persists the new
document or throws ValidationError. -/
def createTask (store : TaskStore) (uid : String) (b : CreateBody)
    (newId : String) (now : Nat) : OpResult StoredTask × TaskStore :=
  let status := b.status.getD ("To do")
  if falsy b.title || falsy b.description then
    (OpResult.err (ApiFailure.validation ("Title and description are required")), store)
  else if status != "" && !taskStatusValues.contains status then
    (OpResult.err (ApiFailure.validation ("Invalid status: " ++ status)), store)
  else
    let t := newTaskDoc uid b newId now
    if validTaskDoc t then (OpResult.ok t, store ++ [t])
    else (OpResult.err (ApiFailure.validation ("Task validation failed")), store)

/-- The JSON body of PATCH /tasks/:id.  The handler destructures only title,
description and status; every other key of the request body (a userId field
included) lands in extra and is never read. -/
structure UpdateBody where
  title : Option String
  description : Option String
  status : Option String
  extra : List (String × String)
deriving Repr, DecidableEq

/-- The updateData object the PATCH handler builds: one key per defined field,
in the handler's insertion order. -/
def updateData (b : UpdateBody) : List (String × String) :=
  (match b.title with | some t => [("title", t)] | none => []) ++
    (match b.description with | some d => [("description", d)] | none => []) ++
      (match b.status with | some s => [("status", s)] | none => [])

/-- The JavaScript check of the PATCH handler: status truthy and outside the
enum.  An empty-string status is falsy, so it slips past this check and is
caught only by the schema validators. -/
def statusCheckFails : Option String → Bool
  | none => false
  | some s => s != "" && !taskStatusValues.contains s

/-- The update validators that runValidators: true makes findOneAndUpdate run
on the paths of the set document, setters (trim) applied first. -/
def setValidatorsPass (b : UpdateBody) : Bool :=
  (match b.title with
    | none => true
    | some t => trimmed t != "" && (trimmed t).length ≤ 200) &&
  (match b.description with
    | none => true
    | some d => trimmed d != "" && (trimmed d).length ≤ 2000) &&
  (match b.status with
    | none => true
    | some s => taskStatusValues.contains s)

/-- Applying the set document to one task: defined fields overwrite (strings
through the trim setter), omitted fields stay, and timestamps: true touches
updatedAt. -/
def applySet (b : UpdateBody) (now : Nat) (t : StoredTask) : StoredTask :=
  { t with
    title := (b.title.map trimmed).getD t.title
    description := (b.description.map trimmed).getD t.description
    status := b.status.getD t.status
    updatedAt := now }

/-- Rewrite the first list element satisfying p with f, as findOneAndUpdate
updates the first matching document. -/
def updateFirst (p : StoredTask → Bool) (f : StoredTask → StoredTask) :
    TaskStore → TaskStore
  | [] => []
  | t :: ts => if p t then f t :: ts else t :: updateFirst p f ts

/-- PATCH /tasks/:id.  In handler order: the truthy-status enum check, the
empty-updateData check, then Task.findOneAndUpdate with runValidators: true —
which casts the _id of the filter (CastError when malformed), runs the update
validators on the set document, and only then matches and rewrites the first
document passing the id-and-owner filter; a miss throws NotFoundError. -/
def updateTask (store : TaskStore) (uid id : String) (b : UpdateBody)
    (now : Nat) : OpResult StoredTask × TaskStore :=
  if statusCheckFails b.status then
    (OpResult.err (ApiFailure.validation ("Invalid status: " ++ b.status.getD (""))), store)
  else if (updateData b).length == 0 then
    (OpResult.err (ApiFailure.validation ("No valid fields provided for update")), store)
  else if !isValidObjectId id then
    (OpResult.err ApiFailure.castError, store)
  else if !setValidatorsPass b then
    (OpResult.err (ApiFailure.validation ("Task validation failed")), store)
  else
    match findOneTask store id uid with
    | none => (OpResult.err (ApiFailure.notFound ("Task not found")), store)
    | some t =>
      (OpResult.ok (applySet b now t),
        updateFirst (fun u => u.id == id && u.userId == uid) (applySet b now) store)

/-- DELETE /tasks/:id.  Task.findOneAndDelete casts the _id (CastError when
malformed), removes the first document passing the id-and-owner filter, and a
miss throws NotFoundError; success replies 204 with no body. -/
def deleteTask (store : TaskStore) (uid id : String) :
    OpResult Unit × TaskStore :=
  if !isValidObjectId id then (OpResult.err ApiFailure.castError, store)
  else
    match findOneTask store id uid with
    | none => (OpResult.err (ApiFailure.notFound ("Task not found")), store)
    | some _ => (OpResult.ok (), store.eraseP (fun u => u.id == id && u.userId == uid))

/-- Sort key of the list handler: createdAt descending. -/
def createdDesc (a b : StoredTask) : Prop := b.createdAt ≤ a.createdAt

instance : DecidableRel createdDesc := fun a b => Nat.decLe b.createdAt a.createdAt

instance : IsTotal StoredTask createdDesc := ⟨fun a b => Nat.le_total b.createdAt a.createdAt⟩

instance : IsTrans StoredTask createdDesc := ⟨fun _ _ _ hab hbc => Nat.le_trans hbc hab⟩

/-- The store's sort on createdAt: -1. -/
def sortNewestFirst (l : TaskStore) : TaskStore := List.insertionSort createdDesc l

/-- The pagination metadata object of the list reply. -/
structure Pagination where
  page : Nat
  limit : Nat
  total : Nat
  totalPages : Nat
deriving Repr, DecidableEq

/-- The GET /tasks reply: one page of data plus pagination metadata. -/
structure ListResult where
  data : List StoredTask
  pagination : Pagination
deriving Repr, DecidableEq

/-- The query object of the list handler: always the owner filter, plus the
status filter when the query string gives one. -/
def matchesQuery (uid : String) (status : Option String) (t : StoredTask) : Bool :=
  t.userId == uid &&
    (match status with | none => true | some s => t.status == s)

/-- GET /tasks.  skip is (page - 1) * limit; the matching documents are
sorted newest-first, the page sliced out with skip and limit, and totalPages
is the ceiling of total over limit (exact for a positive limit). -/
def listTasks (store : TaskStore) (uid : String) (status : Option String)
    (page limit : Nat) : ListResult :=
  let matched := store.filter (matchesQuery uid status)
  let skip := (page - 1) * limit
  { data := ((sortNewestFirst matched).drop skip).take limit
    pagination :=
      { page := page
        limit := limit
        total := matched.length
        totalPages := (matched.length + limit - 1) / limit } }

/-! ## Helper lemmas and sample data -/

/-- A store-assigned ObjectId (24 hex characters). -/
def sampleId : String := "aaaaaaaaaaaaaaaaaaaaaaaa"

/-- A second distinct store-assigned ObjectId. -/
def sampleId2 : String := "bbbbbbbbbbbbbbbbbbbbbbbb"

/-- A concrete persisted task owned by identity u1. -/
def sampleTask : StoredTask :=
  { id := sampleId
    title := "A"
    description := "B"
    status := "To do"
    userId := "u1"
    createdAt := 1
    updatedAt := 1 }

theorem findOneTask_eq_none_of_other_owner (store : TaskStore) (tid A B : String)
    (hB : B ≠ A) (huniq : ∀ u ∈ store, u.id = tid → u.userId = A) :
    findOneTask store tid B = none := by
  unfold findOneTask
  rw [List.find?_eq_none]
  intro u hu hcontra
  simp only [Bool.and_eq_true, beq_iff_eq] at hcontra
  exact hB (hcontra.2 ▸ huniq u hu hcontra.1)

/-! ## Claim theorems -/

/-- C1: for every task stored under identity A and every distinct identity B,
a get-one, a validation-passing update, or a delete by B on that task's
identifier answers NotFound (status 404) — never the task (200) and never a
forbidden outcome — and leaves the store untouched, indistinguishable from
the task not existing. -/
theorem ownership_isolation_404
    (store : TaskStore) (t : StoredTask) (A B : String)
    (ht : t ∈ store) (hown : t.userId = A) (hB : B ≠ A)
    (hid : isValidObjectId t.id = true)
    (huniq : ∀ u ∈ store, u.id = t.id → u.userId = A)
    (b : UpdateBody) (now : Nat)
    (hstatus : statusCheckFails b.status = false)
    (hnonempty : ((updateData b).length == 0) = false)
    (hvalid : setValidatorsPass b = true) :
    getTask store B t.id = OpResult.err (ApiFailure.notFound ("Task not found")) ∧
    (updateTask store B t.id b now).1 =
      OpResult.err (ApiFailure.notFound ("Task not found")) ∧
    (updateTask store B t.id b now).2 = store ∧
    (deleteTask store B t.id).1 =
      OpResult.err (ApiFailure.notFound ("Task not found")) ∧
    (deleteTask store B t.id).2 = store ∧
    (ApiFailure.notFound ("Task not found")).statusCode = 404 := by
  have hfind : findOneTask store t.id B = none :=
    findOneTask_eq_none_of_other_owner store t.id A B hB huniq
  refine ⟨?_, ?_, ?_, ?_, ?_, rfl⟩
  · simp [getTask, hid, hfind]
  · simp [updateTask, hstatus, hnonempty, hid, hvalid, hfind]
  · simp [updateTask, hstatus, hnonempty, hid, hvalid, hfind]
  · simp [deleteTask, hid, hfind]
  · simp [deleteTask, hid, hfind]

theorem ownership_isolation_404_witness :
    getTask [sampleTask] ("u2") sampleTask.id =
      OpResult.err (ApiFailure.notFound ("Task not found")) :=
  (ownership_isolation_404 [sampleTask] sampleTask ("u1") ("u2")
    (by decide) (by decide) (by decide) (by decide) (by decide)
    ⟨some ("x"), none, none, []⟩ 5 (by decide) (by decide) (by decide)).1

/-- C2: evidence against the claim that a duplicate-key failure of User.create
is treated as "record now exists, proceed".  At the failing input — header
token u1, lookup miss, create losing the race with a uniqueness violation —
authMiddleware replies 500 (authFailed) and does not bind the token. -/
theorem authMiddleware_duplicateKey_500 :
    authMiddleware (some ("u1")) none (Except.error DbWriteError.duplicateKey) =
      AuthOutcome.authFailed ∧
    AuthOutcome.authFailed.httpStatus = some 500 ∧
    authMiddleware (some ("u1")) none (Except.error DbWriteError.duplicateKey) ≠
      AuthOutcome.resolved ("u1") := by
  refine ⟨rfl, rfl, ?_⟩
  decide

/-- C3 counterexample: a delete whose identifier matches no owned task does
not always answer NotFound — with the malformed identifier bad-id the store
raises CastError, which the global handler maps to 400, not 404. -/
theorem deleteTask_malformed_id_400 :
    (deleteTask [sampleTask] ("u1") ("bad-id")).1 =
      OpResult.err ApiFailure.castError ∧
    (deleteTask [sampleTask] ("u1") ("bad-id")).1 ≠
      OpResult.err (ApiFailure.notFound ("Task not found")) ∧
    ApiFailure.castError.statusCode = 400 := by
  decide

/-- C3 amended: a delete on a well-formed identifier matching no owned task
fails with NotFound (404); a malformed identifier fails with CastError (400);
these two are the only failure outcomes of delete, and every failing delete
leaves the store untouched. -/
theorem deleteTask_failure_modes (store : TaskStore) (uid id : String) :
    (isValidObjectId id = false →
      (deleteTask store uid id).1 = OpResult.err ApiFailure.castError) ∧
    (isValidObjectId id = true → findOneTask store id uid = none →
      (deleteTask store uid id).1 =
        OpResult.err (ApiFailure.notFound ("Task not found")) ∧
      (ApiFailure.notFound ("Task not found")).statusCode = 404) ∧
    ((deleteTask store uid id).1 = OpResult.ok () ∨
      (deleteTask store uid id).1 = OpResult.err ApiFailure.castError ∨
      (deleteTask store uid id).1 =
        OpResult.err (ApiFailure.notFound ("Task not found"))) ∧
    ((deleteTask store uid id).1 ≠ OpResult.ok () →
      (deleteTask store uid id).2 = store) := by
  by_cases hv : isValidObjectId id
  · cases hf : findOneTask store id uid with
    | none =>
      refine ⟨fun h => by simp [hv] at h, fun _ _ => ⟨?_, rfl⟩, ?_, fun _ => ?_⟩ <;>
        simp [deleteTask, hv, hf]
    | some t =>
      refine ⟨fun h => by simp [hv] at h, fun _ h => by simp [hf] at h, ?_, fun h => ?_⟩
      · left; simp [deleteTask, hv, hf]
      · exact absurd (by simp [deleteTask, hv, hf]) h
  · have hv' : isValidObjectId id = false := by simpa using hv
    refine ⟨fun _ => ?_, fun h _ => by simp [h] at hv', ?_, fun _ => ?_⟩ <;>
      simp [deleteTask, hv']

theorem deleteTask_failure_modes_witness :
    (deleteTask [] ("u1") sampleId).1 =
      OpResult.err (ApiFailure.notFound ("Task not found")) :=
  ((deleteTask_failure_modes [] ("u1") sampleId).2.1 (by decide) (by decide)).1

/-- C4: for an identity owning N tasks, a list request with page k and size P
(k, P positive) returns the caller's tasks newest-first, sliced at offset
(k - 1) * P, at most P records; the metadata echoes page and limit, total is
N, and totalPages is the ceiling of N over P (characterized by
N ≤ P * totalPages < N + P). -/
theorem listTasks_pagination (store : TaskStore) (A : String) (k P : Nat)
    (hk : 1 ≤ k) (hP : 1 ≤ P) :
    (listTasks store A none k P).data =
      ((sortNewestFirst (store.filter (matchesQuery A none))).drop
        ((k - 1) * P)).take P ∧
    (listTasks store A none k P).data.length ≤ P ∧
    List.Sorted createdDesc (listTasks store A none k P).data ∧
    (∀ t ∈ (listTasks store A none k P).data, t.userId = A) ∧
    (listTasks store A none k P).pagination.page = k ∧
    (listTasks store A none k P).pagination.limit = P ∧
    (listTasks store A none k P).pagination.total =
      (store.filter (matchesQuery A none)).length ∧
    ((store.filter (matchesQuery A none)).length ≤
        P * (listTasks store A none k P).pagination.totalPages ∧
      P * (listTasks store A none k P).pagination.totalPages <
        (store.filter (matchesQuery A none)).length + P) := by
  have hsub :
      (listTasks store A none k P).data.Sublist
        (sortNewestFirst (store.filter (matchesQuery A none))) := by
    simp only [listTasks]
    exact (List.take_sublist _ _).trans (List.drop_sublist _ _)
  refine ⟨rfl, ?_, ?_, ?_, rfl, rfl, rfl, ?_⟩
  · simp only [listTasks, List.length_take]
    exact Nat.min_le_left _ _
  · exact List.Pairwise.sublist hsub
      (List.sorted_insertionSort createdDesc _)
  · intro t ht
    have hmem : t ∈ sortNewestFirst (store.filter (matchesQuery A none)) :=
      hsub.subset ht
    have hmem' : t ∈ store.filter (matchesQuery A none) :=
      (List.perm_insertionSort createdDesc _).subset hmem
    have := (List.mem_filter.mp hmem').2
    simpa [matchesQuery] using this
  · simp only [listTasks]
    have hdm := Nat.div_add_mod ((store.filter (matchesQuery A none)).length + P - 1) P
    have hmlt : ((store.filter (matchesQuery A none)).length + P - 1) % P < P :=
      Nat.mod_lt _ (by omega)
    omega

theorem listTasks_pagination_witness :
    (listTasks [sampleTask] ("u1") none 1 2).pagination.total =
      (([sampleTask] : TaskStore).filter (matchesQuery ("u1") none)).length :=
  (listTasks_pagination [sampleTask] ("u1") 1 2 (by decide) (by decide)).2.2.2.2.2.2.1

/-- C5: an update whose body provides none of title, description or status is
rejected with ValidationError (400) before any store access, and the store —
hence every existing task — is exactly unchanged. -/
theorem updateTask_empty_body_400 (store : TaskStore) (uid id : String)
    (now : Nat) :
    (updateTask store uid id ⟨none, none, none, []⟩ now).1 =
      OpResult.err (ApiFailure.validation ("No valid fields provided for update")) ∧
    (updateTask store uid id ⟨none, none, none, []⟩ now).2 = store ∧
    (ApiFailure.validation ("No valid fields provided for update")).statusCode
      = 400 :=
  ⟨rfl, rfl, rfl⟩

theorem mem_updateFirst (p : StoredTask → Bool) (f : StoredTask → StoredTask)
    (l : TaskStore) : ∀ u ∈ updateFirst p f l, ∃ v ∈ l, u = v ∨ u = f v := by
  induction l with
  | nil => intro u hu; simp [updateFirst] at hu
  | cons t ts ih =>
    intro u hu
    by_cases hp : p t
    · simp only [updateFirst, hp, if_true] at hu
      rcases List.mem_cons.mp hu with h | h
      · exact ⟨t, List.mem_cons_self t ts, Or.inr h⟩
      · exact ⟨u, List.mem_cons_of_mem t h, Or.inl rfl⟩
    · simp only [updateFirst, hp, if_false] at hu
      rcases List.mem_cons.mp hu with h | h
      · exact ⟨t, List.mem_cons_self t ts, Or.inl h⟩
      · obtain ⟨v, hv, hvu⟩ := ih u h
        exact ⟨v, List.mem_cons_of_mem t hv, hvu⟩

theorem updateTask_store_frame (store : TaskStore) (uid id : String)
    (b : UpdateBody) (now : Nat) :
    ∀ u ∈ (updateTask store uid id b now).2,
      ∃ v ∈ store, u = v ∨ u = applySet b now v := by
  intro u hu
  by_cases h1 : statusCheckFails b.status = true
  · simp only [updateTask, h1, if_true] at hu
    exact ⟨u, hu, Or.inl rfl⟩
  · have h1' : statusCheckFails b.status = false := by simpa using h1
    by_cases h2 : ((updateData b).length == 0) = true
    · simp only [updateTask, h1', h2, Bool.false_eq_true, if_false, if_true] at hu
      exact ⟨u, hu, Or.inl rfl⟩
    · have h2' : ((updateData b).length == 0) = false := by simpa using h2
      by_cases h3 : isValidObjectId id = true
      · by_cases h4 : setValidatorsPass b = true
        · cases hf : findOneTask store id uid with
          | none =>
            simp only [updateTask, h1', h2', h3, h4, hf, Bool.false_eq_true,
              if_false, Bool.not_true, if_true] at hu
            exact ⟨u, hu, Or.inl rfl⟩
          | some t =>
            simp only [updateTask, h1', h2', h3, h4, hf, Bool.false_eq_true,
              if_false, Bool.not_true, if_true] at hu
            exact mem_updateFirst _ _ store u hu
        · have h4' : setValidatorsPass b = false := by simpa using h4
          simp only [updateTask, h1', h2', h3, h4', Bool.false_eq_true,
            if_false, Bool.not_true, Bool.not_false, if_true] at hu
          exact ⟨u, hu, Or.inl rfl⟩
      · have h3' : isValidObjectId id = false := by simpa using h3
        simp only [updateTask, h1', h2', h3', Bool.false_eq_true, if_false,
          Bool.not_false, if_true] at hu
        exact ⟨u, hu, Or.inl rfl⟩

/-- C6: an update providing only the title field (whatever unrecognized keys
ride along) changes at most the title and updatedAt of any stored task:
identifier, description, status, owning identity and creation timestamp of
every task in the resulting store are exactly those of a task already in the
store. -/
theorem updateTask_title_only_frame (store : TaskStore)
    (uid id newTitle : String) (extra : List (String × String)) (now : Nat) :
    ∀ u ∈ (updateTask store uid id ⟨some newTitle, none, none, extra⟩ now).2,
      ∃ v ∈ store, u.id = v.id ∧ u.description = v.description ∧
        u.status = v.status ∧ u.userId = v.userId ∧ u.createdAt = v.createdAt := by
  intro u hu
  obtain ⟨v, hv, huv⟩ :=
    updateTask_store_frame store uid id ⟨some newTitle, none, none, extra⟩ now u hu
  rcases huv with h | h
  · exact ⟨v, hv, by simp [h]⟩
  · exact ⟨v, hv, by simp [h, applySet]⟩

theorem updateTask_title_only_frame_witness :
    ∃ v ∈ ([sampleTask] : TaskStore),
      ({ sampleTask with title := "New", updatedAt := 2 } : StoredTask).id = v.id ∧
      ({ sampleTask with title := "New", updatedAt := 2 } : StoredTask).description
        = v.description ∧
      ({ sampleTask with title := "New", updatedAt := 2 } : StoredTask).status
        = v.status ∧
      ({ sampleTask with title := "New", updatedAt := 2 } : StoredTask).userId
        = v.userId ∧
      ({ sampleTask with title := "New", updatedAt := 2 } : StoredTask).createdAt
        = v.createdAt :=
  updateTask_title_only_frame [sampleTask] ("u1") sampleId (" New ")
    [(("userId"), ("evil"))] 2
    { sampleTask with title := "New", updatedAt := 2 } (by decide)

theorem createTask_invalid_status (store : TaskStore) (uid s : String)
    (hs : taskStatusValues.contains s = false) (cb : CreateBody)
    (hcb : cb.status = some s) (newId : String) (now : Nat) :
    (∃ e, (createTask store uid cb newId now).1 = OpResult.err e ∧
      e.statusCode = 400) ∧ (createTask store uid cb newId now).2 = store := by
  have hsmem : s ∉ taskStatusValues := by simpa using hs
  by_cases h1 : (falsy cb.title || falsy cb.description) = true
  · exact ⟨⟨ApiFailure.validation ("Title and description are required"),
      by simp [createTask, h1], rfl⟩, by simp [createTask, h1]⟩
  · have h1' : (falsy cb.title || falsy cb.description) = false := by simpa using h1
    by_cases hse : s = ""
    · subst hse
      refine ⟨⟨ApiFailure.validation ("Task validation failed"), ?_, rfl⟩, ?_⟩ <;>
        simp [createTask, h1', hcb, newTaskDoc, validTaskDoc, hsmem]
    · refine ⟨⟨ApiFailure.validation (("Invalid status: ") ++ s), ?_, rfl⟩, ?_⟩ <;>
        simp [createTask, h1', hcb, hsmem, hse]

theorem updateTask_invalid_status (store : TaskStore) (uid s id : String)
    (hs : taskStatusValues.contains s = false) (ub : UpdateBody)
    (hub : ub.status = some s) (now : Nat) :
    (∃ e, (updateTask store uid id ub now).1 = OpResult.err e ∧
      e.statusCode = 400) ∧ (updateTask store uid id ub now).2 = store := by
  have hsmem : s ∉ taskStatusValues := by simpa using hs
  by_cases hse : s = ""
  · subst hse
    have hne : updateData ub ≠ [] := by
      obtain ⟨bt, bd, bs, be⟩ := ub
      simp only at hub
      subst hub
      cases bt <;> cases bd <;> simp [updateData]
    by_cases h3 : isValidObjectId id = true
    · have hsvp : setValidatorsPass ub = false := by
        simp [setValidatorsPass, hub, hsmem]
      refine ⟨⟨ApiFailure.validation ("Task validation failed"), ?_, rfl⟩, ?_⟩ <;>
        simp [updateTask, statusCheckFails, hub, hne, h3, hsvp]
    · have h3' : isValidObjectId id = false := by simpa using h3
      refine ⟨⟨ApiFailure.castError, ?_, rfl⟩, ?_⟩ <;>
        simp [updateTask, statusCheckFails, hub, hne, h3']
  · have hsc : statusCheckFails (some s) = true := by
      simp [statusCheckFails, hse, hsmem]
    refine ⟨⟨ApiFailure.validation (("Invalid status: ") ++ s), ?_, rfl⟩, ?_⟩ <;>
      simp [updateTask, hub, hsc]

/-- C7: a create or update whose status field is present with a value outside
the four enum strings fails with a 400 validation outcome (the JavaScript
truthy check or, for an empty-string status that slips past it, the schema
validators — a malformed identifier on the update path likewise yields 400)
and the store is exactly unchanged: nothing is created or modified. -/
theorem invalid_status_rejected (store : TaskStore) (uid s : String)
    (hs : taskStatusValues.contains s = false)
    (cb : CreateBody) (hcb : cb.status = some s) (newId : String)
    (ub : UpdateBody) (hub : ub.status = some s) (id : String)
    (now now2 : Nat) :
    (∃ e, (createTask store uid cb newId now).1 = OpResult.err e ∧
      e.statusCode = 400) ∧
    (createTask store uid cb newId now).2 = store ∧
    (∃ e, (updateTask store uid id ub now2).1 = OpResult.err e ∧
      e.statusCode = 400) ∧
    (updateTask store uid id ub now2).2 = store :=
  ⟨(createTask_invalid_status store uid s hs cb hcb newId now).1,
   (createTask_invalid_status store uid s hs cb hcb newId now).2,
   (updateTask_invalid_status store uid s id hs ub hub now2).1,
   (updateTask_invalid_status store uid s id hs ub hub now2).2⟩

theorem invalid_status_rejected_witness :
    (createTask [] ("u1") ⟨some ("T"), some ("D"), some ("Bogus")⟩
      sampleId2 3).2 = [] :=
  (invalid_status_rejected [] ("u1") ("Bogus") (by decide)
    ⟨some ("T"), some ("D"), some ("Bogus")⟩ (by decide) sampleId2
    ⟨none, none, some ("Bogus"), []⟩ (by decide) sampleId 3 4).2.1

theorem createTask_ok_userId (store : TaskStore) (uid : String)
    (cb : CreateBody) (newId : String) (now : Nat) (t : StoredTask)
    (hok : (createTask store uid cb newId now).1 = OpResult.ok t) :
    t.userId = uid := by
  by_cases h1 : (falsy cb.title || falsy cb.description) = true
  · simp [createTask, h1] at hok
  · have h1' : (falsy cb.title || falsy cb.description) = false := by simpa using h1
    by_cases h2 : (cb.status.getD ("To do") != "" &&
        !taskStatusValues.contains (cb.status.getD ("To do"))) = true
    · simp only [createTask, h1', Bool.false_eq_true, if_false, h2,
        if_true] at hok
      simp at hok
    · have h2' : (cb.status.getD ("To do") != "" &&
          !taskStatusValues.contains (cb.status.getD ("To do"))) = false := by
        simpa using h2
      by_cases h3 : validTaskDoc (newTaskDoc uid cb newId now) = true
      · simp only [createTask, h1', Bool.false_eq_true, if_false, h2', h3,
          if_true] at hok
        injection hok with h
        rw [← h]
        rfl
      · have h3' : validTaskDoc (newTaskDoc uid cb newId now) = false := by
          simpa using h3
        simp only [createTask, h1', Bool.false_eq_true, if_false, h2', h3',
          if_true] at hok
        simp at hok

/-- C8: the owning identity of a task is the resolved identity of the
creating request, and no later operation rewrites it: every successfully
created task carries the creator's userId; after any update request — the
request body free to carry a userId field among its unrecognized keys —
every stored task keeps the identifier-to-owner pairing it already had; and
a delete only removes records, never rewrites one. -/
theorem userId_immutable (store : TaskStore) (uid : String) (cb : CreateBody)
    (newId : String) (now : Nat) (t : StoredTask)
    (hok : (createTask store uid cb newId now).1 = OpResult.ok t)
    (id : String) (ub : UpdateBody) (now2 : Nat) :
    t.userId = uid ∧
    (∀ u ∈ (updateTask store uid id ub now2).2,
      ∃ v ∈ store, u.id = v.id ∧ u.userId = v.userId) ∧
    (∀ u ∈ (deleteTask store uid id).2, u ∈ store) := by
  refine ⟨createTask_ok_userId store uid cb newId now t hok, ?_, ?_⟩
  · intro u hu
    obtain ⟨v, hv, huv⟩ := updateTask_store_frame store uid id ub now2 u hu
    rcases huv with h | h
    · exact ⟨v, hv, by simp [h]⟩
    · exact ⟨v, hv, by simp [h, applySet]⟩
  · intro u hu
    by_cases h3 : isValidObjectId id = true
    · cases hf : findOneTask store id uid with
      | none => simpa [deleteTask, h3, hf] using hu
      | some w =>
        exact (List.eraseP_sublist store).subset
          (by simpa [deleteTask, h3, hf] using hu)
    · have h3' : isValidObjectId id = false := by simpa using h3
      simpa [deleteTask, h3'] using hu

theorem userId_immutable_witness : sampleTask.userId = ("u1") :=
  (userId_immutable [] ("u1") ⟨some ("A"), some ("B"), none⟩ sampleId 1
    sampleTask (by decide) sampleId2 ⟨none, none, none, []⟩ 2).1

theorem findOneTask_eraseP_none (id uid : String) (l : TaskStore)
    (hnd : (l.map StoredTask.id).Nodup) (t : StoredTask)
    (hsome : findOneTask l id uid = some t) :
    findOneTask (l.eraseP (fun u => u.id == id && u.userId == uid)) id uid
      = none := by
  unfold findOneTask at hsome ⊢
  induction l with
  | nil => simp at hsome
  | cons x xs ih =>
    simp only [List.map_cons, List.nodup_cons] at hnd
    by_cases hp : (x.id == id && x.userId == uid) = true
    · rw [List.eraseP_cons_of_pos (p := fun u : StoredTask => u.id == id && u.userId == uid) hp,
        List.find?_eq_none]
      intro u hu hcontra
      simp only [Bool.and_eq_true, beq_iff_eq] at hp hcontra
      exact hnd.1 (by
        rw [hp.1, ← hcontra.1]
        exact List.mem_map_of_mem StoredTask.id hu)
    · have hp' : ¬ ((fun u : StoredTask => u.id == id && u.userId == uid) x = true) := hp
      have hfind : xs.find? (fun u => u.id == id && u.userId == uid) = some t := by
        rwa [List.find?_cons_of_neg
          (p := fun u : StoredTask => u.id == id && u.userId == uid) xs hp'] at hsome
      rw [List.eraseP_cons_of_neg
          (p := fun u : StoredTask => u.id == id && u.userId == uid) hp',
        List.find?_cons_of_neg
          (p := fun u : StoredTask => u.id == id && u.userId == uid) _ hp']
      exact ih hnd.2 hfind

/-- C9: after a delete that succeeded (204) on an identifier, a get-one by
the same identity on that identifier against the resulting store answers
NotFound (404) — assuming the store's guarantee that _id values are
unique. -/
theorem delete_then_get_404 (store : TaskStore) (uid id : String)
    (hnd : (store.map StoredTask.id).Nodup)
    (hok : (deleteTask store uid id).1 = OpResult.ok ()) :
    getTask (deleteTask store uid id).2 uid id =
      OpResult.err (ApiFailure.notFound ("Task not found")) ∧
    (ApiFailure.notFound ("Task not found")).statusCode = 404 := by
  refine ⟨?_, rfl⟩
  by_cases hv : isValidObjectId id = true
  · cases hf : findOneTask store id uid with
    | none => simp [deleteTask, hv, hf] at hok
    | some t =>
      have hnone := findOneTask_eraseP_none id uid store hnd t hf
      simp [deleteTask, hv, hf, getTask, hnone]
  · have hv' : isValidObjectId id = false := by simpa using hv
    simp [deleteTask, hv'] at hok

theorem delete_then_get_404_witness :
    getTask (deleteTask [sampleTask] ("u1") sampleId).2 ("u1") sampleId =
      OpResult.err (ApiFailure.notFound ("Task not found")) :=
  (delete_then_get_404 [sampleTask] ("u1") sampleId (by decide) (by decide)).1

/-- C10: an update whose body provides no recognized field — only keys
outside title, description and status, a userId among them if you like — is
rejected as an empty update with ValidationError (400) and the store is
exactly unchanged; and the set document any update builds only ever carries
the keys title, description and status, so no other field is ever written to
a stored task. -/
theorem updateTask_unrecognized_only (store : TaskStore) (uid id : String)
    (extra : List (String × String)) (now : Nat) (b : UpdateBody) :
    (updateTask store uid id ⟨none, none, none, extra⟩ now).1 =
      OpResult.err (ApiFailure.validation ("No valid fields provided for update")) ∧
    (updateTask store uid id ⟨none, none, none, extra⟩ now).2 = store ∧
    (ApiFailure.validation ("No valid fields provided for update")).statusCode
      = 400 ∧
    (updateData b).all
      (fun kv => kv.1 == "title" || kv.1 == "description" || kv.1 == "status")
      = true := by
  refine ⟨rfl, rfl, rfl, ?_⟩
  obtain ⟨bt, bd, bs, be⟩ := b
  cases bt <;> cases bd <;> cases bs <;> rfl
